import Mathlib

/-!
Verification of the session keepalive subsystem of cyberark-fuzzy-api.

The definitions below are a shallow embedding of the Python sources:
  - keepalive.py  (the detached daemon: run_keepalive, cleanup_and_exit, shutdown)
  - auth.py       (the supervisor: AuthManager._is_keepalive_running,
                   start_keepalive, stop_keepalive)
  - api.py        (the credential store: CyberArkAPI.token getter and setter)

Machine-level effects are represented explicitly: wall-clock time is an
integer number of seconds advanced exactly by each sleep, the random draw of
random.randint is an oracle indexed by a seed, the token file and PID file
are Option String values, the remote ping and the signal-0 liveness probe
are oracle functions supplied per call, and a Python exception is a distinct
outcome constructor.
-/

namespace Cyberark

/-- Whitespace characters removed by Python str.strip with no argument
(restricted to the ASCII range, which covers every value the repository
writes). -/
def isPySpace (c : Char) : Bool :=
  c = ' ' || c = '\t' || c = '\n' || c = '\r' || c = Char.ofNat 11 || c = Char.ofNat 12

/-- Python str.strip with no argument: drop leading and trailing whitespace. -/
def pyStrip (s : String) : String :=
  ⟨((s.data.dropWhile isPySpace).reverse.dropWhile isPySpace).reverse⟩

/-- Numeric value of an ASCII digit. -/
def digitVal (c : Char) : Nat := c.toNat - '0'.toNat

/-- Digit-run grammar accepted by Python int(): a nonempty run of ASCII
digits in which a single underscore may appear between two digits. -/
def pyDigits : List Char → Bool
  | [] => false
  | [c] => ('0' ≤ c) && (c ≤ '9')
  | c :: '_' :: rest2 => ('0' ≤ c) && (c ≤ '9') && pyDigits rest2
  | c :: rest => ('0' ≤ c) && (c ≤ '9') && pyDigits rest

/-- Value of a digit run, skipping the grouping underscores. -/
def digitsToNat : List Char → Nat → Nat
  | [], acc => acc
  | c :: rest, acc =>
    if c = '_' then digitsToNat rest acc
    else digitsToNat rest (acc * 10 + digitVal c)

/-- Python int() applied to a string: strip whitespace, accept an optional
sign followed by a digit run; any other content raises ValueError, which we
model as none. -/
def pyParseInt (s : String) : Option Int :=
  match (pyStrip s).data with
  | '+' :: rest => if pyDigits rest then some (Int.ofNat (digitsToNat rest 0)) else none
  | '-' :: rest => if pyDigits rest then some (-(Int.ofNat (digitsToNat rest 0))) else none
  | rest => if pyDigits rest then some (Int.ofNat (digitsToNat rest 0)) else none

/-- Model of random.randint a b for a ≤ b: an arbitrary seed-indexed choice
from the inclusive range [a, b]; every seed yields a value of the range and
every value of the range is realised by some seed. The case a > b, where
Python raises ValueError, is handled at the call site in iterStep. -/
def randint (a b : Int) (seed : Nat) : Int :=
  a + (seed % (b - a + 1).toNat : Int)

/-- Start parameters of one daemon instance (run_keepalive arguments). -/
structure DaemonConfig where
  timeout_seconds : Int
  min_interval : Int
  max_interval : Int
deriving DecidableEq

/-- Environment of one loop iteration: the seed consumed by the randint
draw, an optional SIGTERM/SIGINT delivered while the daemon is inside
time.sleep, the content of the token file at the moment line 126 reads it,
and the result of ping_api. -/
structure IterInput where
  seed : Nat
  sigDuringSleep : Option Nat
  tokenFile : Option String
  pingOk : Bool
deriving DecidableEq

/-- Reason the daemon left its loop, one per terminating branch of
run_keepalive (lines 109, 121, 126, 131, 136) and the signal handler. -/
inductive ExitReason
  | timeoutAtEntry
  | timeoutAfterSleep
  | signalled
  | tokenMissing
  | tokenEmpty
  | pingFailed
deriving DecidableEq

/-- Outcome of one iteration of the while-loop body of run_keepalive:
an exit via cleanup_and_exit carrying the process exit code, the reason,
the elapsed seconds at exit and whether ping_api ran this iteration; a
normal fall-through to the next iteration; or an unhandled ValueError
raised by random.randint. -/
inductive IterOutcome
  | exitWith (code : Int) (reason : ExitReason) (elapsedAtExit : Int) (probed : Bool)
  | continueLoop (newElapsed : Int)
  | valueErrorRaised (elapsedAtRaise : Int)
deriving DecidableEq

/-- Line 114 of keepalive.py: min(random.randint(...), remaining). The first
argument is the remaining budget, the second the randint draw. -/
def sleepChoice (remaining r : Int) : Int := min r remaining

/-- Body of the while-loop of run_keepalive (keepalive.py lines 104-140),
one iteration. Wall-clock time is modelled discretely: time.sleep t advances
the elapsed time by exactly t. A signal delivered during the sleep runs the
shutdown handler, which calls cleanup_and_exit 0. -/
def iterStep (cfg : DaemonConfig) (elapsed : Int) (inp : IterInput) : IterOutcome :=
  let remaining := cfg.timeout_seconds - elapsed
  if remaining ≤ 0 then
    .exitWith 0 .timeoutAtEntry elapsed false
  else if cfg.max_interval < cfg.min_interval then
    .valueErrorRaised elapsed
  else
    let sleep_time := sleepChoice remaining (randint cfg.min_interval cfg.max_interval inp.seed)
    match inp.sigDuringSleep with
    | some _ => .exitWith 0 .signalled elapsed false
    | none =>
      let elapsed2 := elapsed + sleep_time
      if cfg.timeout_seconds ≤ elapsed2 then
        .exitWith 0 .timeoutAfterSleep elapsed2 false
      else
        match inp.tokenFile with
        | none => .exitWith 1 .tokenMissing elapsed2 false
        | some t =>
          if pyStrip t = "" then .exitWith 1 .tokenEmpty elapsed2 false
          else if inp.pingOk then .continueLoop elapsed2
          else .exitWith 1 .pingFailed elapsed2 true

/-- Lines 96-99 of keepalive.py: remove the PID file when it exists, then
exit with the given code. Input and output are the presence of the PID file
paired with the exit code passed through. -/
def cleanup_and_exit (pidPresent : Bool) (code : Int) : Bool × Int :=
  (if pidPresent then false else pidPresent, code)

/-- Outcome of a whole daemon run: a process exit with its code, reason,
final PID-file presence, elapsed seconds and number of ping_api calls; an
unhandled ValueError escaping the loop; or exhaustion of the supplied list
of iteration environments while the loop was still running. -/
inductive RunOutcome
  | exited (code : Int) (reason : ExitReason) (pidFilePresent : Bool)
      (elapsedAtExit : Int) (probes : Nat)
  | raisedValueError (pidFilePresent : Bool) (elapsedAtRaise : Int) (probes : Nat)
  | fuelOut (pidFilePresent : Bool) (elapsed : Int) (probes : Nat)
deriving DecidableEq

/-- The while-loop of run_keepalive, consuming one IterInput per iteration.
An exit branch routes through cleanup_and_exit; an unhandled exception does
not, so the PID-file state at the raise is propagated unchanged. -/
def runLoopAux (cfg : DaemonConfig) (pidPresent : Bool) (elapsed : Int) (probes : Nat) :
    List IterInput → RunOutcome
  | [] => .fuelOut pidPresent elapsed probes
  | inp :: rest =>
    match iterStep cfg elapsed inp with
    | .exitWith code reason e probed =>
      let r := cleanup_and_exit pidPresent code
      .exited r.2 reason r.1 e (probes + (if probed then 1 else 0))
    | .continueLoop e => runLoopAux cfg pidPresent e (probes + 1) rest
    | .valueErrorRaised e => .raisedValueError pidPresent e probes

/-- run_keepalive (keepalive.py lines 60-140): write the PID file (line 81),
then run the loop from elapsed time zero. -/
def run_keepalive (cfg : DaemonConfig) (inputs : List IterInput) : RunOutcome :=
  runLoopAux cfg true 0 0 inputs

/-- Result of os.kill pid 0 on the Unix branch of the liveness check:
delivery succeeded, it raised ProcessLookupError, or it raised
PermissionError. -/
inductive KillZeroResult
  | ok
  | noSuchProcess
  | permissionDenied
deriving DecidableEq

/-- AuthManager._is_keepalive_running, Unix branch (auth.py lines 104-129).
The first component is the returned Bool, the second the PID-file content
after the call. The except clause of the source names ValueError, OSError
and ProcessLookupError; in Python 3, PermissionError and ProcessLookupError
are both subclasses of OSError, so every one of the three probe results
other than a silent success reaches the unlink branch, as does a parse
failure of the file content. -/
def is_keepalive_running (pidFile : Option String) (probe : Int → KillZeroResult) :
    Bool × Option String :=
  match pidFile with
  | none => (false, none)
  | some s =>
    match pyParseInt (pyStrip s) with
    | none => (false, none)
    | some pid =>
      match probe pid with
      | .ok => (true, some s)
      | .noSuchProcess => (false, none)
      | .permissionDenied => (false, none)

/-- Whether AuthManager.start_keepalive spawned a daemon subprocess. -/
inductive StartAction
  | alreadyRunning
  | spawned
deriving DecidableEq

/-- AuthManager.start_keepalive up to the spawn decision (auth.py lines
131-187): when the liveness check answers true the call returns at line 143
without spawning; otherwise it launches the detached subprocess. The
post-spawn half-second wait and re-probe (lines 189-196) are diagnostic
printing only and change neither the spawn count nor the PID file, whose
next write is performed by the spawned daemon itself. The second component
is the PID-file content when start_keepalive returns control, before the
daemon writes it. -/
def start_keepalive (pidFile : Option String) (probe : Int → KillZeroResult) :
    StartAction × Option String :=
  match is_keepalive_running pidFile probe with
  | (true, pf) => (.alreadyRunning, pf)
  | (false, pf) => (.spawned, pf)

/-- Message category printed by AuthManager.stop_keepalive. -/
inductive StopReport
  | nothingToStop
  | stopped
  | couldNotStop
deriving DecidableEq

/-- Observable effects of one AuthManager.stop_keepalive call: the PID the
SIGTERM was addressed to when os.kill was invoked at all, the PID-file
content afterwards, and the message category printed. -/
structure StopOutcome where
  sentSigterm : Option Int
  pidFileAfter : Option String
  report : StopReport
deriving DecidableEq

/-- AuthManager.stop_keepalive, Unix branch (auth.py lines 198-221). The
kill oracle answers whether os.kill pid SIGTERM succeeded (false models a
raised OSError). An absent PID file returns at line 204 before the
try-finally, so nothing is sent and nothing is unlinked; otherwise the
finally clause unlinks the file on every path, including a ValueError from
int() before any kill was attempted. -/
def stop_keepalive (pidFile : Option String) (kill : Int → Bool) : StopOutcome :=
  match pidFile with
  | none => ⟨none, none, .nothingToStop⟩
  | some s =>
    match pyParseInt (pyStrip s) with
    | none => ⟨none, none, .couldNotStop⟩
    | some pid =>
      if kill pid then ⟨some pid, none, .stopped⟩
      else ⟨some pid, none, .couldNotStop⟩

/-- Atomic filesystem-visible step performed on the token file. Path
write_text value opens the file in mode w, which first truncates it in
place, and then writes value: two separately visible steps. -/
inductive FileOp
  | truncate
  | append (s : String)
deriving DecidableEq

/-- Effect of one step on the token-file state (none means absent). -/
def applyOp : Option String → FileOp → Option String
  | _, .truncate => some ""
  | none, .append s => some s
  | some c, .append s => some (c ++ s)

/-- Effect of a sequence of steps. -/
def applyOps (st : Option String) (ops : List FileOp) : Option String :=
  ops.foldl applyOp st

/-- CyberArkAPI.token setter (api.py lines 46-51): persist the value with
token_path.write_text value, that is a truncate-in-place followed by the
write of the value, with no temporary file and no rename. -/
def write_token_ops (value : String) : List FileOp :=
  [.truncate, .append value]

/-- Token read as performed by the daemon (keepalive.py line 130) and the
token getter (api.py lines 37-44): read the whole file when it exists and
strip it. -/
def read_token (st : Option String) : Option String :=
  st.map pyStrip

/-- Statement abbreviation: within a daemon configured by cfg, any loop
iteration that passes the two timeout checks and the two token checks with a
failing ping exits that same iteration through cleanup_and_exit 1 with
reason pingFailed, instead of retrying the probe in place. -/
def probeFailureExitsSameIteration (cfg : DaemonConfig) : Prop :=
  ∀ (elapsed2 : Int) (inp : IterInput) (t : String),
    0 < cfg.timeout_seconds - elapsed2 →
    cfg.min_interval ≤ cfg.max_interval →
    inp.sigDuringSleep = none →
    elapsed2 + sleepChoice (cfg.timeout_seconds - elapsed2)
        (randint cfg.min_interval cfg.max_interval inp.seed) < cfg.timeout_seconds →
    inp.tokenFile = some t →
    pyStrip t ≠ "" →
    inp.pingOk = false →
    iterStep cfg elapsed2 inp =
      .exitWith 1 .pingFailed
        (elapsed2 + sleepChoice (cfg.timeout_seconds - elapsed2)
          (randint cfg.min_interval cfg.max_interval inp.seed)) true

/-!  Theorems. -/

/-- Removing the PID file when present and then exiting always leaves the
file absent, whatever its prior state, and passes the code through. -/
theorem cleanup_and_exit_removes (b : Bool) (c : Int) :
    cleanup_and_exit b c = (false, c) := by
  cases b <;> rfl

/-- Every exiting branch of the loop body carries exit code 0 exactly for
the two timeout checks and the signal handler, and exit code 1 exactly for
the three credential-loss branches. -/
theorem iterStep_exit_cases (cfg : DaemonConfig) (elapsed : Int) (inp : IterInput)
    (code : Int) (reason : ExitReason) (e : Int) (pr : Bool)
    (h : iterStep cfg elapsed inp = .exitWith code reason e pr) :
    (code = 0 ∧ (reason = .timeoutAtEntry ∨ reason = .timeoutAfterSleep ∨
      reason = .signalled)) ∨
    (code = 1 ∧ (reason = .tokenMissing ∨ reason = .tokenEmpty ∨
      reason = .pingFailed)) := by
  unfold iterStep at h
  dsimp only at h
  repeat' split at h
  all_goals first
    | exact IterOutcome.noConfusion h
    | (injection h with h1 h2 h3 h4
       subst h1
       subst h2
       decide)

/-- When the interval bounds are ordered, no branch of the loop body raises
the randint ValueError. -/
theorem iterStep_no_raise (cfg : DaemonConfig) (elapsed : Int) (inp : IterInput) (e : Int)
    (hle : cfg.min_interval ≤ cfg.max_interval) :
    iterStep cfg elapsed inp ≠ .valueErrorRaised e := by
  intro h
  unfold iterStep at h
  dsimp only at h
  repeat' split at h
  all_goals first
    | exact IterOutcome.noConfusion h
    | omega

/-- Any process exit produced by the loop leaves the PID file absent and
carries the code-reason correspondence of iterStep_exit_cases, whatever the
PID-file state, elapsed time and probe count the loop started from. -/
theorem runLoopAux_exited_inv (cfg : DaemonConfig) (inputs : List IterInput) :
    ∀ (pidP : Bool) (elapsed : Int) (probes : Nat) (code : Int) (reason : ExitReason)
      (pid : Bool) (e : Int) (p : Nat),
      runLoopAux cfg pidP elapsed probes inputs = .exited code reason pid e p →
      pid = false ∧
      ((code = 0 ∧ (reason = .timeoutAtEntry ∨ reason = .timeoutAfterSleep ∨
          reason = .signalled)) ∨
       (code = 1 ∧ (reason = .tokenMissing ∨ reason = .tokenEmpty ∨
          reason = .pingFailed))) := by
  induction inputs with
  | nil =>
    intro pidP elapsed probes code reason pid e p h
    exact absurd h (by simp [runLoopAux])
  | cons inp rest ih =>
    intro pidP elapsed probes code reason pid e p h
    rw [runLoopAux] at h
    cases hstep : iterStep cfg elapsed inp with
    | exitWith c r e2 prb =>
      rw [hstep] at h
      dsimp only at h
      rw [cleanup_and_exit_removes] at h
      dsimp only at h
      injection h with h1 h2 h3 h4 h5
      refine ⟨h3.symm, ?_⟩
      have hc := iterStep_exit_cases cfg elapsed inp c r e2 prb hstep
      rw [h1, h2] at hc
      exact hc
    | continueLoop e2 =>
      rw [hstep] at h
      dsimp only at h
      exact ih pidP e2 (probes + 1) code reason pid e p h
    | valueErrorRaised e2 =>
      rw [hstep] at h
      dsimp only at h
      exact RunOutcome.noConfusion h

/-- With ordered interval bounds the loop can never end in an unhandled
ValueError, from any starting state. -/
theorem runLoopAux_no_raise (cfg : DaemonConfig) (inputs : List IterInput)
    (hle : cfg.min_interval ≤ cfg.max_interval) :
    ∀ (pidP : Bool) (elapsed : Int) (probes : Nat) (pid : Bool) (e : Int) (p : Nat),
      runLoopAux cfg pidP elapsed probes inputs ≠ .raisedValueError pid e p := by
  induction inputs with
  | nil =>
    intro pidP elapsed probes pid e p h
    exact absurd h (by simp [runLoopAux])
  | cons inp rest ih =>
    intro pidP elapsed probes pid e p h
    rw [runLoopAux] at h
    cases hstep : iterStep cfg elapsed inp with
    | exitWith c r e2 prb =>
      rw [hstep] at h
      dsimp only at h
      exact RunOutcome.noConfusion h
    | continueLoop e2 =>
      rw [hstep] at h
      dsimp only at h
      exact ih pidP e2 (probes + 1) pid e p h
    | valueErrorRaised e2 =>
      exact iterStep_no_raise cfg elapsed inp e2 hle hstep

/-- C1: a daemon run that ends in a process exit carries exit code 0 exactly
when it ended by a timeout check or by the SIGTERM/SIGINT handler, and a
non-zero code, always 1, exactly when the token file was missing, the token
was empty or the remote probe failed; moreover a failed probe exits on that
same iteration with no in-place retry. -/
theorem keepalive_exit_codes (cfg : DaemonConfig) (inputs : List IterInput)
    (code : Int) (reason : ExitReason) (pidAfter : Bool) (e : Int) (p : Nat)
    (h : run_keepalive cfg inputs = .exited code reason pidAfter e p) :
    ((code = 0 ↔ (reason = .timeoutAtEntry ∨ reason = .timeoutAfterSleep ∨
        reason = .signalled)) ∧
     (code ≠ 0 ↔ (reason = .tokenMissing ∨ reason = .tokenEmpty ∨
        reason = .pingFailed)) ∧
     (code ≠ 0 → code = 1)) ∧
    probeFailureExitsSameIteration cfg := by
  constructor
  · obtain ⟨-, hcases⟩ := runLoopAux_exited_inv cfg inputs true 0 0 code reason pidAfter e p h
    rcases hcases with ⟨hc, hr⟩ | ⟨hc, hr⟩ <;> subst hc <;>
      rcases hr with h1 | h1 | h1 <;> subst h1 <;> decide
  · intro elapsed2 inp t hrem hle hsig hlt htok hstrip hping
    unfold iterStep
    dsimp only
    rw [if_neg (by omega), if_neg (by omega), hsig]
    dsimp only
    rw [if_neg (by omega), htok]
    dsimp only
    rw [if_neg hstrip, if_neg (by simp [hping])]

/-- Witness for C1: a run that exits through a failed probe after one
iteration, under the configuration timeout 100, intervals 5 to 10. -/
theorem keepalive_exit_codes_witness :
    (((1 : Int) = 0 ↔ (ExitReason.pingFailed = ExitReason.timeoutAtEntry ∨
        ExitReason.pingFailed = ExitReason.timeoutAfterSleep ∨
        ExitReason.pingFailed = ExitReason.signalled)) ∧
     ((1 : Int) ≠ 0 ↔ (ExitReason.pingFailed = ExitReason.tokenMissing ∨
        ExitReason.pingFailed = ExitReason.tokenEmpty ∨
        ExitReason.pingFailed = ExitReason.pingFailed)) ∧
     ((1 : Int) ≠ 0 → (1 : Int) = 1)) ∧
    probeFailureExitsSameIteration ⟨100, 5, 10⟩ :=
  keepalive_exit_codes ⟨100, 5, 10⟩ [⟨0, none, some "tok", false⟩]
    1 .pingFailed false 5 1 (by decide)

/-- C2: every terminating run of the daemon, whatever the reason among the
two timeout checks, a missing token, an empty token, a failed probe or a
received signal, leaves the PID file removed at process exit. -/
theorem pid_file_removed_on_exit (cfg : DaemonConfig) (inputs : List IterInput)
    (code : Int) (reason : ExitReason) (pidAfter : Bool) (e : Int) (p : Nat)
    (h : run_keepalive cfg inputs = .exited code reason pidAfter e p) :
    pidAfter = false :=
  (runLoopAux_exited_inv cfg inputs true 0 0 code reason pidAfter e p h).1

/-- Witness for C2: a run terminated by a SIGTERM delivered during the first
sleep exits with the PID file absent. -/
theorem pid_file_removed_on_exit_witness :
    run_keepalive ⟨100, 5, 10⟩ [⟨0, some 15, some "tok", true⟩] =
      .exited 0 .signalled false 0 0 ∧ false = false :=
  ⟨by decide,
   pid_file_removed_on_exit ⟨100, 5, 10⟩ [⟨0, some 15, some "tok", true⟩]
     0 .signalled false 0 0 (by decide)⟩

/-- C3: with a hard timeout of 2 seconds and both intervals at 10 seconds,
the first sleep is clamped to the remaining budget of 2 seconds, the
post-sleep re-check finds the deadline expired, and the daemon exits with
code 0 at exactly the hard timeout, with no probe issued and the PID file
removed, whatever the token file, the ping oracle, the randint seed and any
further scheduled iterations. -/
theorem deadline_enforcement (seed : Nat) (tok : Option String) (pok : Bool)
    (rest : List IterInput) :
    run_keepalive ⟨2, 10, 10⟩ (⟨seed, none, tok, pok⟩ :: rest) =
      .exited 0 .timeoutAfterSleep false 2 0 := by
  unfold run_keepalive
  rw [runLoopAux]
  have hstep : iterStep ⟨2, 10, 10⟩ 0 ⟨seed, none, tok, pok⟩ =
      .exitWith 0 .timeoutAfterSleep 2 false := by
    unfold iterStep randint sleepChoice
    dsimp only
    norm_num [Nat.mod_one]
  rw [hstep]
  rfl

/-- C4: on an iteration that reaches the sleep step, the randint draw lies
in the inclusive interval between min_interval and max_interval, the chosen
sleep duration is exactly the minimum of the draw and the remaining budget,
and therefore never exceeds the remaining time to the hard deadline. -/
theorem sleep_duration_in_bounds (cfg : DaemonConfig) (elapsed : Int) (inp : IterInput)
    (hle : cfg.min_interval ≤ cfg.max_interval)
    (hrem : 0 < cfg.timeout_seconds - elapsed) :
    cfg.min_interval ≤ randint cfg.min_interval cfg.max_interval inp.seed ∧
    randint cfg.min_interval cfg.max_interval inp.seed ≤ cfg.max_interval ∧
    sleepChoice (cfg.timeout_seconds - elapsed)
        (randint cfg.min_interval cfg.max_interval inp.seed) =
      min (randint cfg.min_interval cfg.max_interval inp.seed)
        (cfg.timeout_seconds - elapsed) ∧
    sleepChoice (cfg.timeout_seconds - elapsed)
        (randint cfg.min_interval cfg.max_interval inp.seed) ≤
      cfg.timeout_seconds - elapsed := by
  have hmod : inp.seed % (cfg.max_interval - cfg.min_interval + 1).toNat <
      (cfg.max_interval - cfg.min_interval + 1).toNat :=
    Nat.mod_lt _ (by omega)
  refine ⟨?_, ?_, rfl, ?_⟩
  · unfold randint
    omega
  · unfold randint
    omega
  · unfold sleepChoice
    omega

/-- Witness for C4 at the default configuration, elapsed time 0 and seed 5:
the draw is 906 and the sleep is clamped to the budget of 32400 seconds. -/
theorem sleep_duration_in_bounds_witness :
    (901 : Int) ≤ randint 901 1139 5 ∧
    randint 901 1139 5 ≤ 1139 ∧
    sleepChoice (32400 - 0) (randint 901 1139 5) =
      min (randint 901 1139 5) (32400 - 0) ∧
    sleepChoice (32400 - 0) (randint 901 1139 5) ≤ 32400 - 0 :=
  sleep_duration_in_bounds ⟨32400, 901, 1139⟩ 0 ⟨5, none, some "tok", true⟩
    (by decide) (by decide)

/-- C9: with ordered positive interval bounds the randint call never raises,
so no run ends in an unhandled ValueError; with inverted bounds and a
positive timeout, the very first iteration raises ValueError after the PID
file was written, so the process dies abnormally with the PID file still
present and no cleanup run. -/
theorem randint_guard_behaviour (cfg : DaemonConfig) (inputs : List IterInput)
    (inp : IterInput) (rest : List IterInput) :
    (0 < cfg.min_interval → cfg.min_interval ≤ cfg.max_interval →
      ∀ (pid : Bool) (e : Int) (p : Nat),
        run_keepalive cfg inputs ≠ .raisedValueError pid e p) ∧
    (cfg.max_interval < cfg.min_interval → 0 < cfg.timeout_seconds →
      run_keepalive cfg (inp :: rest) = .raisedValueError true 0 0) := by
  constructor
  · intro _ hle pid e p
    exact runLoopAux_no_raise cfg inputs hle true 0 0 pid e p
  · intro hlt htime
    unfold run_keepalive
    rw [runLoopAux]
    have hstep : iterStep cfg 0 inp = .valueErrorRaised 0 := by
      unfold iterStep
      dsimp only
      rw [if_neg (by omega), if_pos hlt]
    rw [hstep]

/-- Witness for C9: a well-ordered configuration never raising, and an
inverted configuration raising on the first iteration with the PID file
left behind. -/
theorem randint_guard_behaviour_witness :
    (∀ (pid : Bool) (e : Int) (p : Nat),
      run_keepalive ⟨100, 5, 10⟩ [⟨0, none, some "tok", true⟩] ≠
        .raisedValueError pid e p) ∧
    run_keepalive ⟨100, 10, 5⟩ [⟨0, none, some "tok", true⟩] =
      .raisedValueError true 0 0 :=
  ⟨(randint_guard_behaviour ⟨100, 5, 10⟩ [⟨0, none, some "tok", true⟩]
      ⟨0, none, some "tok", true⟩ []).1 (by decide) (by decide),
   (randint_guard_behaviour ⟨100, 10, 5⟩ [⟨0, none, some "tok", true⟩]
      ⟨0, none, some "tok", true⟩ []).2 (by decide) (by decide)⟩

/-- C6: the liveness probe on the Unix branch, applied to a PID file whose
recorded PID draws a permission-denied answer from the signal-0 probe,
returns false and deletes the PID file. The specification requires the
opposite: a permission-denied result must count as alive with the file
preserved, since the process exists and is merely not ours to signal. The
code reaches this outcome because its except clause catches OSError, of
which PermissionError is a subclass. -/
theorem permission_denied_counts_as_dead :
    is_keepalive_running (some "1234") (fun _ => KillZeroResult.permissionDenied) =
      (false, none) := by
  rfl

/-- C7: when the PID file holds a PID whose liveness probe succeeds,
start_keepalive reports the daemon as already running, performs no spawn and
leaves the PID file unchanged; a second immediate call does the same, so two
successive calls while a daemon is alive spawn nothing. -/
theorem start_keepalive_idempotent (s : String) (pid : Int)
    (probe : Int → KillZeroResult)
    (hparse : pyParseInt (pyStrip s) = some pid) (halive : probe pid = .ok) :
    start_keepalive (some s) probe = (.alreadyRunning, some s) ∧
    start_keepalive (start_keepalive (some s) probe).2 probe =
      (.alreadyRunning, some s) := by
  have hrun : is_keepalive_running (some s) probe = (true, some s) := by
    unfold is_keepalive_running
    dsimp only
    rw [hparse]
    dsimp only
    rw [halive]
  have h1 : start_keepalive (some s) probe = (.alreadyRunning, some s) := by
    unfold start_keepalive
    rw [hrun]
  exact ⟨h1, by rw [h1]; exact h1⟩

/-- Witness for C7 at a concrete PID file and an all-alive probe. -/
theorem start_keepalive_idempotent_witness :
    start_keepalive (some "1234") (fun _ => KillZeroResult.ok) =
      (.alreadyRunning, some "1234") ∧
    start_keepalive
        (start_keepalive (some "1234") (fun _ => KillZeroResult.ok)).2
        (fun _ => KillZeroResult.ok) =
      (.alreadyRunning, some "1234") :=
  start_keepalive_idempotent "1234" 1234 (fun _ => KillZeroResult.ok)
    (by decide) rfl

/-- C8: stop_keepalive with an absent PID file reports nothing to stop and
sends no termination request; with a present PID file it always removes the
file, sends exactly one SIGTERM to the recorded PID when the content parses
(whether or not delivery succeeds), and sends nothing when parsing fails. -/
theorem stop_keepalive_contract (pidFile : Option String) (kill : Int → Bool) :
    (pidFile = none →
      stop_keepalive pidFile kill = ⟨none, none, .nothingToStop⟩) ∧
    (∀ s, pidFile = some s → (stop_keepalive pidFile kill).pidFileAfter = none) ∧
    (∀ s pid, pidFile = some s → pyParseInt (pyStrip s) = some pid →
      (stop_keepalive pidFile kill).sentSigterm = some pid) ∧
    (∀ s, pidFile = some s → pyParseInt (pyStrip s) = none →
      (stop_keepalive pidFile kill).sentSigterm = none) := by
  refine ⟨fun h => by rw [h]; rfl, ?_, ?_, ?_⟩
  · intro s hs
    subst hs
    unfold stop_keepalive
    dsimp only
    cases hp : pyParseInt (pyStrip s) with
    | none => rfl
    | some pid => by_cases hk : kill pid <;> simp [hk]
  · intro s pid hs hp
    subst hs
    unfold stop_keepalive
    dsimp only
    rw [hp]
    by_cases hk : kill pid <;> simp [hk]
  · intro s hs hp
    subst hs
    unfold stop_keepalive
    dsimp only
    rw [hp]

/-- Witness for C8 covering each discharged hypothesis at concrete inputs:
an absent file, a file holding 42 and a file holding unparsable text. -/
theorem stop_keepalive_contract_witness :
    stop_keepalive none (fun _ => true) = ⟨none, none, .nothingToStop⟩ ∧
    (stop_keepalive (some "42") (fun _ => true)).pidFileAfter = none ∧
    (stop_keepalive (some "42") (fun _ => true)).sentSigterm = some 42 ∧
    (stop_keepalive (some "bogus") (fun _ => true)).sentSigterm = none :=
  ⟨(stop_keepalive_contract none (fun _ => true)).1 rfl,
   (stop_keepalive_contract (some "42") (fun _ => true)).2.1 "42" rfl,
   (stop_keepalive_contract (some "42") (fun _ => true)).2.2.1 "42" 42 rfl (by decide),
   (stop_keepalive_contract (some "bogus") (fun _ => true)).2.2.2 "bogus" rfl (by decide)⟩

/-- C10: a PID file whose content fails to parse as a decimal integer makes
the liveness check delete the file and answer false, so the next
start_keepalive proceeds to spawn instead of being blocked by the corrupt
file. -/
theorem corrupt_pid_file_recovered (s : String) (probe : Int → KillZeroResult)
    (hbad : pyParseInt (pyStrip s) = none) :
    is_keepalive_running (some s) probe = (false, none) ∧
    start_keepalive (some s) probe = (.spawned, none) := by
  have h1 : is_keepalive_running (some s) probe = (false, none) := by
    unfold is_keepalive_running
    dsimp only
    rw [hbad]
  exact ⟨h1, by unfold start_keepalive; rw [h1]⟩

/-- Witness for C10 at a concrete corrupt PID file. -/
theorem corrupt_pid_file_recovered_witness :
    is_keepalive_running (some "not-a-pid") (fun _ => KillZeroResult.ok) =
      (false, none) ∧
    start_keepalive (some "not-a-pid") (fun _ => KillZeroResult.ok) =
      (.spawned, none) :=
  corrupt_pid_file_recovered "not-a-pid" (fun _ => KillZeroResult.ok) (by decide)

/-- C5: the token write path is a truncate-in-place followed by the write,
so a reader interleaved between the two steps of write_token observes the
empty string, a value that is neither the previous token, the new token,
nor absence. Starting from a stored token AAA, the read taken after only
the first step of the write of BBB returns the stripped empty string, while
the completed write yields BBB. -/
theorem token_write_not_atomic :
    read_token (applyOps (some "AAA") ((write_token_ops "BBB").take 1)) = some "" ∧
    (some "" : Option String) ≠ read_token (some "AAA") ∧
    (some "" : Option String) ≠ read_token (some "BBB") ∧
    (some "" : Option String) ≠ none ∧
    applyOps (some "AAA") (write_token_ops "BBB") = some "BBB" := by
  decide

end Cyberark
